import Mathlib

/-!
Verification of the OPTALG IPOPT adapter (`optalg/opt_solver/_ipopt/cipopt.pyx`).

Shallow embedding: double values are modelled as `Int` (the adapter only moves
them around, never does arithmetic on them), C pointers that may be null are
modelled as `Option (List Int)` (the memory region behind the pointer, `none`
for NULL), and numpy array objects are modelled as `PyBuf` records carrying a
dtype, contiguity flag, number of dimensions, data and an address identifying
the underlying memory (so that aliasing is observable).

The five callback trampolines, the context constructor, `add_option`,
`create_problem` and `solve` are each translated directly from the source.
The native entry points (`CreateIpoptProblem`, `IpoptSolve`, the three option
setters) are opaque to the adapter and are modelled as parameters: the option
setters as boolean-valued oracles, `IpoptSolve` as a driver function that
receives the buffers the adapter passes it and writes their new contents.
-/

namespace Cipopt

/-- Result of the user's `eval_jac_g` callback: a (rows, cols) sparsity
pattern when called with `flag=True`, a value array when called with
`flag=False`.  The Python callback is one function; the model splits the two
return shapes into the two fields of `IpoptCallbacks`. -/
structure IpoptCallbacks where
  f : List Int → Int
  g : List Int → List Int
  grad_f : List Int → List Int
  /-- value of `eval_jac_g(None, True)` -/
  jac_struct : List Int × List Int
  /-- value of `eval_jac_g(x, False)`; the argument is the `ArrayDouble`
  view of the incoming point (`none` when the view wraps a NULL pointer) -/
  jac_vals : Option (List Int) → List Int
  /-- value of `eval_h(None, None, None, True)` -/
  h_struct : List Int × List Int
  /-- value of `eval_h(x, lam, obj_factor, False)` -/
  h_vals : Option (List Int) → Option (List Int) → Int → List Int

/-- numpy dtype of a buffer object, as far as the Cython
`np.ndarray[double, mode='c']` cast cares: native double or something else. -/
inductive Dtype where
  | float64
  | float32
  | int32
deriving DecidableEq, Repr, BEq

/-- A numpy array object: dtype, C-contiguity, number of dimensions, its
data, and the address of the underlying memory (for aliasing reasoning). -/
structure PyBuf where
  dtype : Dtype
  contig : Bool
  ndim : Nat
  data : List Int
  addr : Nat
deriving DecidableEq, Repr

/-- The check performed by the Cython buffer cast
`cdef np.ndarray[double, mode='c'] b = obj`: native double dtype,
C-contiguous, one-dimensional.  It does not look at the length. -/
def conformingBuf (b : PyBuf) : Bool :=
  b.dtype == Dtype.float64 && b.contig && b.ndim == 1

/-- The native problem handle produced by `CreateIpoptProblem`: dimensions,
nonzero counts, and the raw addresses of the four bound buffers (the native
solver reads the caller's memory directly, no copy is made). -/
structure IpoptHandle where
  n : Nat
  m : Nat
  nnzj : Nat
  nnzh : Nat
  lAddr : Nat
  uAddr : Nat
  glAddr : Nat
  guAddr : Nat
deriving DecidableEq, Repr

/-- The `IpoptContext` object: dimensions, nonzero counts, the stored bound
arrays, the callback set and the owned native handle. -/
structure IpoptContext where
  n : Nat
  m : Nat
  nnzj : Nat
  nnzh : Nat
  l : PyBuf
  u : PyBuf
  gl : PyBuf
  gu : PyBuf
  cb : IpoptCallbacks
  handle : IpoptHandle

/-- `memcpy dst src count` copies `count` elements from the start of `src`
over the start of `dst`; `none` models an out-of-bounds access (the C call
would read or write past one of the buffers). -/
def memcpy (dst src : List Int) (count : Nat) : Option (List Int) :=
  if count ≤ src.length ∧ count ≤ dst.length then
    some (src.take count ++ dst.drop count)
  else
    none

/-- `ArrayDouble(p, n)`: zero-copy view of `n` doubles at pointer `p`
(`none` when `p` is NULL: the view then wraps a null pointer). -/
def arrayDouble (p : Option (List Int)) (n : Nat) : Option (List Int) :=
  p.map (List.take n)

/-- `eval_f_cb`: stores the objective value returned by the user callback
into the output slot and returns `True`. -/
def eval_f_cb (c : IpoptContext) (x : List Int) (_objSlot : Int) : Bool × Int :=
  (true, c.cb.f (x.take c.n))

/-- `eval_grad_f_cb`: calls the user gradient callback on the point view and
`memcpy`s `n` doubles of its result into the output buffer, unconditionally,
then returns `True`.  `none` models the out-of-bounds copy that happens when
the returned array holds fewer than `n` doubles. -/
def eval_grad_f_cb (c : IpoptContext) (x : List Int) (grad_f : List Int) :
    Option (Bool × List Int) :=
  let grad_f_arr := c.cb.grad_f (x.take c.n)
  (memcpy grad_f grad_f_arr c.n).map (fun d => (true, d))

/-- `eval_g_cb`: calls the user constraint callback and `memcpy`s `m`
doubles of its result into the output buffer, unconditionally, then returns
`True`. -/
def eval_g_cb (c : IpoptContext) (x : List Int) (g : List Int) :
    Option (Bool × List Int) :=
  let g_arr := c.cb.g (x.take c.n)
  (memcpy g g_arr c.m).map (fun d => (true, d))

/-- The call the Jacobian trampoline makes to the user callback: either the
structure query `eval_jac_g(None, True)` or the value query
`eval_jac_g(ArrayDouble(x, n), False)` (whose argument is `none` when the
trampoline wraps a NULL point pointer). -/
inductive JacCall where
  | structQuery
  | valueQuery (x : Option (List Int))
deriving DecidableEq, Repr

/-- Outcome of one invocation of the Jacobian trampoline: the query it issued
to the user callback, the boolean it returns to the native driver (`none`
models an out-of-bounds copy), and the output buffers after the call. -/
structure JacOut where
  query : JacCall
  ret : Option Bool
  iRow : Option (List Int)
  jCol : Option (List Int)
  values : List Int
deriving DecidableEq, Repr

/-- `eval_jac_g_cb`: structure branch when the point pointer is NULL and both
index output pointers are non-NULL, value branch otherwise; each branch
checks the returned array sizes against `nele_jac` and returns `False` on a
mismatch instead of copying. -/
def eval_jac_g_cb (c : IpoptContext) (x : Option (List Int)) (nele_jac : Nat)
    (iRow jCol : Option (List Int)) (values : List Int) : JacOut :=
  if x.isNone && iRow.isSome && jCol.isSome then
    let jrow_arr := c.cb.jac_struct.1
    let jcol_arr := c.cb.jac_struct.2
    if jrow_arr.length ≠ nele_jac ∨ jcol_arr.length ≠ nele_jac then
      ⟨.structQuery, some false, iRow, jCol, values⟩
    else
      match iRow, jCol with
      | some ir, some jc =>
        match memcpy ir jrow_arr nele_jac, memcpy jc jcol_arr nele_jac with
        | some ir2, some jc2 => ⟨.structQuery, some true, some ir2, some jc2, values⟩
        | _, _ => ⟨.structQuery, none, iRow, jCol, values⟩
      | _, _ => ⟨.structQuery, none, iRow, jCol, values⟩
  else
    let xview := arrayDouble x c.n
    let jdata_arr := c.cb.jac_vals xview
    if jdata_arr.length ≠ nele_jac then
      ⟨.valueQuery xview, some false, iRow, jCol, values⟩
    else
      match memcpy values jdata_arr nele_jac with
      | some v2 => ⟨.valueQuery xview, some true, iRow, jCol, v2⟩
      | none => ⟨.valueQuery xview, none, iRow, jCol, values⟩

/-- The call the Hessian trampoline makes to the user callback: structure
query `eval_h(None, None, None, True)` or value query
`eval_h(ArrayDouble(x,n), ArrayDouble(lam,m), obj_factor, False)`. -/
inductive HessCall where
  | structQuery
  | valueQuery (x : Option (List Int)) (lam : Option (List Int)) (objFactor : Int)
deriving DecidableEq, Repr

/-- Outcome of one invocation of the Hessian trampoline. -/
structure HessOut where
  query : HessCall
  ret : Option Bool
  iRow : Option (List Int)
  jCol : Option (List Int)
  values : List Int
deriving DecidableEq, Repr

/-- `eval_h_cb`: same branch condition and size checks as the Jacobian
trampoline, with the value query also passing the multiplier view and the
objective factor. -/
def eval_h_cb (c : IpoptContext) (x : Option (List Int)) (objFactor : Int)
    (lam : Option (List Int)) (nele_hess : Nat)
    (iRow jCol : Option (List Int)) (values : List Int) : HessOut :=
  if x.isNone && iRow.isSome && jCol.isSome then
    let hrow_arr := c.cb.h_struct.1
    let hcol_arr := c.cb.h_struct.2
    if hrow_arr.length ≠ nele_hess ∨ hcol_arr.length ≠ nele_hess then
      ⟨.structQuery, some false, iRow, jCol, values⟩
    else
      match iRow, jCol with
      | some ir, some jc =>
        match memcpy ir hrow_arr nele_hess, memcpy jc hcol_arr nele_hess with
        | some ir2, some jc2 => ⟨.structQuery, some true, some ir2, some jc2, values⟩
        | _, _ => ⟨.structQuery, none, iRow, jCol, values⟩
      | _, _ => ⟨.structQuery, none, iRow, jCol, values⟩
  else
    let xview := arrayDouble x c.n
    let lamview := arrayDouble lam c.m
    let hdata_arr := c.cb.h_vals xview lamview objFactor
    if hdata_arr.length ≠ nele_hess then
      ⟨.valueQuery xview lamview objFactor, some false, iRow, jCol, values⟩
    else
      match memcpy values hdata_arr nele_hess with
      | some v2 => ⟨.valueQuery xview lamview objFactor, some true, iRow, jCol, v2⟩
      | none => ⟨.valueQuery xview lamview objFactor, none, iRow, jCol, values⟩

/-- Python value passed to `add_option`, classified the way the
`isinstance` chain classifies it. -/
inductive PyVal where
  | int (i : Int)
  | str (s : String)
  | float (q : Int)
  | other
deriving DecidableEq, Repr

/-- The native option-setter call `add_option` issues. -/
inductive SetterCall where
  | intS (key : String) (v : Int)
  | strS (key : String) (v : String)
  | numS (key : String) (v : Int)
deriving DecidableEq, Repr

/-- The three native option setters, modelled as accept/reject oracles. -/
structure NativeSetters where
  intSetter : String → Int → Bool
  strSetter : String → String → Bool
  numSetter : String → Int → Bool

/-- Error raised by `add_option`: `ValueError('invalid value')` for an
unsupported value type, `IpoptContextError('option %s could not be set')`
when the native setter rejects the pair. -/
inductive OptError where
  | valueError
  | ctxError (key : String)
deriving DecidableEq, Repr

/-- `IpoptContext.add_option`: dispatch on the value's runtime type to one of
the three native setters; raise `ValueError` for any other type before
touching the handle; raise `IpoptContextError` when the chosen setter
reports the pair invalid.  Returns the setter call made (if any) together
with the exception outcome. -/
def add_option (s : NativeSetters) (key : String) (val : PyVal) :
    Option SetterCall × Except OptError Unit :=
  match val with
  | .int i =>
    (some (.intS key i), if s.intSetter key i then .ok () else .error (.ctxError key))
  | .str t =>
    (some (.strS key t), if s.strSetter key t then .ok () else .error (.ctxError key))
  | .float q =>
    (some (.numS key q), if s.numSetter key q then .ok () else .error (.ctxError key))
  | .other => (none, .error .valueError)

/-- Error raised during construction: the `assert` on the structure-query
array lengths, or the Cython buffer cast rejecting one of the four bound
arrays (numbered 0..3 in source order l, u, gl, gu) in `create_problem`. -/
inductive InitError where
  | assertionError
  | bufferError (which : Nat)
deriving DecidableEq, Repr

/-- Observable steps of construction, used to state ordering properties:
the two structure queries and the native `CreateIpoptProblem` call. -/
inductive Event where
  | queryJacStruct
  | queryHStruct
  | createProblem
deriving DecidableEq, Repr

/-- `IpoptContext.create_problem`: cast the four stored bound arrays with
`np.ndarray[double, mode='c']` (raising on a non-conforming buffer, in
source order), then call `CreateIpoptProblem` with the dimensions, nonzero
counts and the raw data addresses of the four buffers (no copy). -/
def create_problem (n m nnzj nnzh : Nat) (l u gl gu : PyBuf) :
    Except InitError IpoptHandle :=
  if ¬conformingBuf l then .error (.bufferError 0)
  else if ¬conformingBuf u then .error (.bufferError 1)
  else if ¬conformingBuf gl then .error (.bufferError 2)
  else if ¬conformingBuf gu then .error (.bufferError 3)
  else .ok ⟨n, m, nnzj, nnzh, l.addr, u.addr, gl.addr, gu.addr⟩

/-- `IpoptContext.__init__`: store the arguments, query the Jacobian callback
once in structure mode and assert equal row/column lengths, likewise for the
Hessian callback, record the lengths as the nonzero counts, then call
`create_problem`.  Returns the trace of observable steps together with the
constructed context or the exception. -/
def ipoptInit (n m : Nat) (l u gl gu : PyBuf) (cb : IpoptCallbacks) :
    List Event × Except InitError IpoptContext :=
  let jrow := cb.jac_struct.1
  let jcol := cb.jac_struct.2
  if jrow.length ≠ jcol.length then
    ([.queryJacStruct], .error .assertionError)
  else
    let nnzj := jrow.length
    let hrow := cb.h_struct.1
    let hcol := cb.h_struct.2
    if hrow.length ≠ hcol.length then
      ([.queryJacStruct, .queryHStruct], .error .assertionError)
    else
      let nnzh := hrow.length
      match create_problem n m nnzj nnzh l u gl gu with
      | .error e => ([.queryJacStruct, .queryHStruct], .error e)
      | .ok h =>
        ([.queryJacStruct, .queryHStruct, .createProblem],
         .ok ⟨n, m, nnzj, nnzh, l, u, gl, gu, cb, h⟩)

/-- The native iteration driver `IpoptSolve`, abstracted: it receives the
data of the point buffer and of the three multiplier buffers the adapter
passes it, and yields a status code and the contents it wrote back into
those four buffers (it writes through the pointers, in place). -/
def Driver : Type :=
  List Int → List Int → List Int → List Int →
    Int × List Int × List Int × List Int × List Int

/-- The dict returned by `solve`: exactly the keys
`status`, `x`, `lam`, `pi`, `mu`. -/
structure SolveResult where
  status : Int
  x : PyBuf
  lam : PyBuf
  pi : PyBuf
  mu : PyBuf

/-- `IpoptContext.solve`: cast the caller's starting point with
`np.ndarray[double, mode='c']` (a typed view of the same memory — no copy,
same address), allocate three fresh zero-filled buffers `np.zeros(m)`,
`np.zeros(n)`, `np.zeros(n)` at fresh addresses, invoke the driver on the
four data regions, and return the dict.  `fresh` is the allocator state:
every live buffer has address `< fresh`; the call returns the new allocator
state `fresh + 3`. -/
def IpoptContext.solve (c : IpoptContext) (drv : Driver) (fresh : Nat)
    (x : PyBuf) : Except InitError (SolveResult × Nat) :=
  if ¬conformingBuf x then .error (.bufferError 0)
  else
    let nlam : PyBuf := ⟨.float64, true, 1, List.replicate c.m 0, fresh⟩
    let npi : PyBuf := ⟨.float64, true, 1, List.replicate c.n 0, fresh + 1⟩
    let nmu : PyBuf := ⟨.float64, true, 1, List.replicate c.n 0, fresh + 2⟩
    let r := drv x.data nlam.data npi.data nmu.data
    .ok (⟨r.1,
          { x with data := r.2.1 },
          { nlam with data := r.2.2.1 },
          { npi with data := r.2.2.2.1 },
          { nmu with data := r.2.2.2.2 }⟩, fresh + 3)

/-! ### Concrete fixtures used by witnesses and counterexamples -/

/-- A conforming (native double, contiguous, 1-D) buffer. -/
def bufEx (data : List Int) (addr : Nat) : PyBuf :=
  ⟨.float64, true, 1, data, addr⟩

/-- A concrete callback set.  Its gradient callback returns three doubles
regardless of the point, so on a context with `n = 2` it returns a
wrong-length buffer. -/
def cbEx : IpoptCallbacks where
  f := fun _ => 0
  g := fun _ => [7]
  grad_f := fun _ => [10, 20, 30]
  jac_struct := ([0], [0])
  jac_vals := fun _ => [5]
  h_struct := ([0], [0])
  h_vals := fun _ _ _ => [9]

/-- A concrete native handle. -/
def handleEx : IpoptHandle := ⟨2, 1, 1, 1, 0, 1, 2, 3⟩

/-- A concrete context with `n = 2`, `m = 1`. -/
def ctxEx : IpoptContext :=
  ⟨2, 1, 1, 1, bufEx [0, 0] 0, bufEx [0, 0] 1, bufEx [0] 2, bufEx [0] 3,
   cbEx, handleEx⟩

/-- A driver that touches nothing: status 0, every buffer left as passed. -/
def idDrv : Driver := fun a b d e => (0, a, b, d, e)

/-- A driver that writes `[8, 9]` into the point buffer, modelling the
native solver depositing a final iterate through the point pointer. -/
def writeDrv : Driver := fun _ b d e => (0, [8, 9], b, d, e)

/-! ### Helper lemmas on the trampolines -/

/-- Which query the Jacobian trampoline issues, as a function of the
pointer-nullity pattern: the structure query exactly when the point
pointer is NULL and both index output pointers are non-NULL. -/
theorem eval_jac_g_cb_query_eq (c : IpoptContext) (x : Option (List Int))
    (nele_jac : Nat) (iRow jCol : Option (List Int)) (vals : List Int) :
    (eval_jac_g_cb c x nele_jac iRow jCol vals).query =
      if x.isNone && iRow.isSome && jCol.isSome then JacCall.structQuery
      else JacCall.valueQuery (arrayDouble x c.n) := by
  cases x <;> cases iRow <;> cases jCol <;>
    simp only [eval_jac_g_cb, Option.isNone_none, Option.isNone_some,
      Option.isSome_none, Option.isSome_some, Bool.true_and, Bool.false_and,
      Bool.and_true, Bool.and_false, Bool.and_self, ite_true, ite_false,
      Bool.false_eq_true, if_true, if_false] <;>
    repeat' first
      | rfl
      | (split <;> try rfl)

/-- Which query the Hessian trampoline issues: same branch condition as the
Jacobian trampoline. -/
theorem eval_h_cb_query_eq (c : IpoptContext) (x : Option (List Int))
    (objFactor : Int) (lam : Option (List Int)) (nele_hess : Nat)
    (iRow jCol : Option (List Int)) (vals : List Int) :
    (eval_h_cb c x objFactor lam nele_hess iRow jCol vals).query =
      if x.isNone && iRow.isSome && jCol.isSome then HessCall.structQuery
      else HessCall.valueQuery (arrayDouble x c.n) (arrayDouble lam c.m) objFactor := by
  cases x <;> cases iRow <;> cases jCol <;>
    simp only [eval_h_cb, Option.isNone_none, Option.isNone_some,
      Option.isSome_none, Option.isSome_some, Bool.true_and, Bool.false_and,
      Bool.and_true, Bool.and_false, Bool.and_self, ite_true, ite_false,
      Bool.false_eq_true, if_true, if_false] <;>
    repeat' first
      | rfl
      | (split <;> try rfl)

/-! ### Claim theorems -/

/-- C2: for every invocation of the Jacobian and Hessian trampolines,
structure-query mode is taken exactly when the incoming point pointer is
null and both row/column output index pointers are non-null, and value-query
mode is taken in every other case; the two branches are mutually exclusive
and exhaustive (each invocation issues exactly one of the two query forms,
and the two iff conditions are complementary). -/
theorem jac_hess_mode_dispatch (c : IpoptContext) (x : Option (List Int))
    (nele_jac : Nat) (iRow jCol : Option (List Int)) (vals : List Int)
    (xh : Option (List Int)) (objFactor : Int) (lam : Option (List Int))
    (nele_hess : Nat) (iRowH jColH : Option (List Int)) (valsH : List Int) :
    ((eval_jac_g_cb c x nele_jac iRow jCol vals).query = JacCall.structQuery ↔
      (x = none ∧ iRow ≠ none ∧ jCol ≠ none)) ∧
    ((eval_jac_g_cb c x nele_jac iRow jCol vals).query =
        JacCall.valueQuery (arrayDouble x c.n) ↔
      ¬(x = none ∧ iRow ≠ none ∧ jCol ≠ none)) ∧
    ((eval_h_cb c xh objFactor lam nele_hess iRowH jColH valsH).query =
        HessCall.structQuery ↔
      (xh = none ∧ iRowH ≠ none ∧ jColH ≠ none)) ∧
    ((eval_h_cb c xh objFactor lam nele_hess iRowH jColH valsH).query =
        HessCall.valueQuery (arrayDouble xh c.n) (arrayDouble lam c.m) objFactor ↔
      ¬(xh = none ∧ iRowH ≠ none ∧ jColH ≠ none)) := by
  refine ⟨?_, ?_, ?_, ?_⟩
  · rw [eval_jac_g_cb_query_eq]
    cases x <;> cases iRow <;> cases jCol <;> simp
  · rw [eval_jac_g_cb_query_eq]
    cases x <;> cases iRow <;> cases jCol <;> simp
  · rw [eval_h_cb_query_eq]
    cases xh <;> cases iRowH <;> cases jColH <;> simp
  · rw [eval_h_cb_query_eq]
    cases xh <;> cases iRowH <;> cases jColH <;> simp

/-- C10: the objective-value trampoline returns `True` on every invocation —
after storing the callback's scalar result it unconditionally reports
success — whereas the Jacobian and Hessian trampolines can return `False`
(witnessed by concrete invocations). -/
theorem eval_f_cb_always_reports_success :
    (∀ (c : IpoptContext) (x : List Int) (objSlot : Int),
      (eval_f_cb c x objSlot).1 = true) ∧
    (∃ (c : IpoptContext) (nele : Nat) (ir jc : List Int) (vals : List Int),
      (eval_jac_g_cb c none nele (some ir) (some jc) vals).ret = some false) ∧
    (∃ (c : IpoptContext) (objFactor : Int) (nele : Nat) (ir jc : List Int)
        (vals : List Int),
      (eval_h_cb c none objFactor none nele (some ir) (some jc) vals).ret =
        some false) := by
  refine ⟨fun c x o => rfl, ⟨ctxEx, 0, [0], [0], [], ?_⟩,
    ⟨ctxEx, 0, 0, [0], [0], [], ?_⟩⟩ <;> decide

/-- C1 counterexample: the gradient trampoline performs no length check.
On a context with `n = 2` whose gradient callback returns three doubles
(a mismatched length), the trampoline still copies `n` doubles out of the
returned buffer and returns `True` to the native driver, instead of
returning `False` without copying as the claim states. -/
theorem grad_trampoline_no_check_cex :
    (ctxEx.cb.grad_f (List.take ctxEx.n [0, 0])).length ≠ ctxEx.n ∧
    eval_grad_f_cb ctxEx [0, 0] [0, 0] = some (true, [10, 20]) := by
  decide

/-- C1 amended: only the Jacobian and Hessian trampolines perform the
exact-length check — in both their value branch and their structure branch
they return `False` without touching the output buffers exactly when the
callback's returned array length differs from the solver-expected count —
while the objective-gradient and constraint-values trampolines perform no
length check at all: they unconditionally copy `n` (respectively `m`)
doubles from the returned buffer and report success (out-of-bounds when the
returned buffer is shorter), never returning `False`. -/
theorem length_checks_jac_hess_only (c : IpoptContext) :
    (∀ (xb : List Int) (nele : Nat) (iRow jCol : Option (List Int))
        (vals : List Int),
      ((eval_jac_g_cb c (some xb) nele iRow jCol vals).ret = some false ∧
       (eval_jac_g_cb c (some xb) nele iRow jCol vals).iRow = iRow ∧
       (eval_jac_g_cb c (some xb) nele iRow jCol vals).jCol = jCol ∧
       (eval_jac_g_cb c (some xb) nele iRow jCol vals).values = vals) ↔
      (c.cb.jac_vals (some (List.take c.n xb))).length ≠ nele) ∧
    (∀ (nele : Nat) (ir jc : List Int) (vals : List Int),
      ((eval_jac_g_cb c none nele (some ir) (some jc) vals).ret = some false ∧
       (eval_jac_g_cb c none nele (some ir) (some jc) vals).iRow = some ir ∧
       (eval_jac_g_cb c none nele (some ir) (some jc) vals).jCol = some jc ∧
       (eval_jac_g_cb c none nele (some ir) (some jc) vals).values = vals) ↔
      (c.cb.jac_struct.1.length ≠ nele ∨ c.cb.jac_struct.2.length ≠ nele)) ∧
    (∀ (xb : List Int) (objFactor : Int) (lam : Option (List Int))
        (nele : Nat) (iRow jCol : Option (List Int)) (vals : List Int),
      ((eval_h_cb c (some xb) objFactor lam nele iRow jCol vals).ret = some false ∧
       (eval_h_cb c (some xb) objFactor lam nele iRow jCol vals).values = vals) ↔
      (c.cb.h_vals (some (List.take c.n xb)) (arrayDouble lam c.m)
          objFactor).length ≠ nele) ∧
    (∀ (objFactor : Int) (nele : Nat) (ir jc : List Int) (vals : List Int),
      ((eval_h_cb c none objFactor none nele (some ir) (some jc) vals).ret =
          some false ∧
       (eval_h_cb c none objFactor none nele (some ir) (some jc) vals).iRow =
          some ir ∧
       (eval_h_cb c none objFactor none nele (some ir) (some jc) vals).jCol =
          some jc) ↔
      (c.cb.h_struct.1.length ≠ nele ∨ c.cb.h_struct.2.length ≠ nele)) ∧
    (∀ (x gbuf : List Int),
      eval_grad_f_cb c x gbuf =
        if c.n ≤ (c.cb.grad_f (List.take c.n x)).length ∧ c.n ≤ gbuf.length then
          some (true,
            List.take c.n (c.cb.grad_f (List.take c.n x)) ++ List.drop c.n gbuf)
        else none) ∧
    (∀ (x gbuf : List Int),
      eval_g_cb c x gbuf =
        if c.m ≤ (c.cb.g (List.take c.n x)).length ∧ c.m ≤ gbuf.length then
          some (true,
            List.take c.m (c.cb.g (List.take c.n x)) ++ List.drop c.m gbuf)
        else none) := by
  refine ⟨?_, ?_, ?_, ?_, ?_, ?_⟩
  · intro xb nele iRow jCol vals
    simp only [eval_jac_g_cb, Option.isNone_some, Bool.false_and,
      Bool.false_eq_true, if_false, ite_false, arrayDouble, Option.map_some]
    split <;> first | (split <;> simp_all) | simp_all
  · intro nele ir jc vals
    simp only [eval_jac_g_cb, Option.isNone_none, Option.isSome_some,
      Bool.true_and, Bool.and_self, if_true, ite_true]
    split <;> first | (split <;> simp_all) | simp_all
  · intro xb objFactor lam nele iRow jCol vals
    simp only [eval_h_cb, Option.isNone_some, Bool.false_and,
      Bool.false_eq_true, if_false, ite_false, arrayDouble, Option.map_some]
    split <;> first | (split <;> simp_all) | simp_all
  · intro objFactor nele ir jc vals
    simp only [eval_h_cb, Option.isNone_none, Option.isSome_some,
      Bool.true_and, Bool.and_self, if_true, ite_true]
    split <;> first | (split <;> simp_all) | simp_all
  · intro x gbuf
    simp only [eval_grad_f_cb, memcpy]
    split <;> rfl
  · intro x gbuf
    simp only [eval_g_cb, memcpy]
    split <;> rfl

/-- C4: for every key and value, `add_option` invokes exactly one of the
three native setters chosen by the value's runtime type — integer value to
the integer setter, string value to the string setter, floating-point value
to the numeric setter — and for a value of any other type it makes no setter
call at all, which happens exactly when it raises the type-dispatch
`ValueError`. -/
theorem add_option_dispatch (s : NativeSetters) (key : String) (val : PyVal) :
    (add_option s key val).1 =
      (match val with
       | .int i => some (.intS key i)
       | .str t => some (.strS key t)
       | .float q => some (.numS key q)
       | .other => none) ∧
    ((add_option s key val).1 = none ↔
      (add_option s key val).2 = .error .valueError) := by
  cases val with
  | int i => exact ⟨rfl, by by_cases hb : s.intSetter key i <;> simp [add_option, hb]⟩
  | str t => exact ⟨rfl, by by_cases hb : s.strSetter key t <;> simp [add_option, hb]⟩
  | float q => exact ⟨rfl, by by_cases hb : s.numSetter key q <;> simp [add_option, hb]⟩
  | other => exact ⟨rfl, by simp [add_option]⟩

/-- C5: `add_option` raises the configuration error `IpoptContextError`
(distinct from the type-dispatch `ValueError`) if and only if the value is
of one of the three supported kinds and the corresponding native setter
rejects the key/value pair; and it returns without raising if and only if
the value is of a supported kind and the setter accepts the pair. -/
theorem add_option_ctx_error_iff (s : NativeSetters) (key : String) (val : PyVal) :
    ((add_option s key val).2 = .error (.ctxError key) ↔
      ((∃ i, val = .int i ∧ s.intSetter key i = false) ∨
       (∃ t, val = .str t ∧ s.strSetter key t = false) ∨
       (∃ q, val = .float q ∧ s.numSetter key q = false))) ∧
    ((add_option s key val).2 = .ok () ↔
      ((∃ i, val = .int i ∧ s.intSetter key i = true) ∨
       (∃ t, val = .str t ∧ s.strSetter key t = true) ∨
       (∃ q, val = .float q ∧ s.numSetter key q = true))) := by
  cases val with
  | int i => by_cases hb : s.intSetter key i <;> simp [add_option, hb]
  | str t => by_cases hb : s.strSetter key t <;> simp [add_option, hb]
  | float q => by_cases hb : s.numSetter key q <;> simp [add_option, hb]
  | other => simp [add_option]

/-- `create_problem` never raises the constructor's assertion error: its
only failures are buffer-cast failures. -/
theorem create_problem_ne_assert (n m nnzj nnzh : Nat) (l u gl gu : PyBuf) :
    create_problem n m nnzj nnzh l u gl gu ≠ Except.error InitError.assertionError := by
  unfold create_problem
  intro hcp
  repeat' split at hcp <;> simp_all

/-- `create_problem` succeeds exactly when all four bound buffers pass the
Cython buffer cast. -/
theorem create_problem_isOk_iff (n m nnzj nnzh : Nat) (l u gl gu : PyBuf) :
    (create_problem n m nnzj nnzh l u gl gu).isOk = true ↔
      (conformingBuf l = true ∧ conformingBuf u = true ∧
       conformingBuf gl = true ∧ conformingBuf gu = true) := by
  by_cases h1 : conformingBuf l <;> by_cases h2 : conformingBuf u <;>
    by_cases h3 : conformingBuf gl <;> by_cases h4 : conformingBuf gu <;>
    simp [create_problem, h1, h2, h3, h4, Except.isOk, Except.toBool]

/-- When `create_problem` succeeds, the handle it returns carries the
dimensions, the nonzero counts, and the raw addresses of the four bound
buffers. -/
theorem create_problem_ok (n m nnzj nnzh : Nat) (l u gl gu : PyBuf)
    (h : IpoptHandle) (hcp : create_problem n m nnzj nnzh l u gl gu = .ok h) :
    h = ⟨n, m, nnzj, nnzh, l.addr, u.addr, gl.addr, gu.addr⟩ := by
  unfold create_problem at hcp
  repeat' split at hcp <;> simp_all

/-- C3: construction queries the Jacobian callback once and the Hessian
callback once in structure mode (the Hessian query happens exactly when the
Jacobian assertion passed), records the returned lengths as the nonzero
counts, and on a row/column length mismatch of either pair it fails with the
assertion error — in which case the native `CreateIpoptProblem` call never
appears in the trace (it appears exactly when construction succeeds), so no
native resource is allocated on that failure path. -/
theorem init_struct_queries (n m : Nat) (l u gl gu : PyBuf) (cb : IpoptCallbacks) :
    ((ipoptInit n m l u gl gu cb).1.count Event.queryJacStruct = 1) ∧
    ((ipoptInit n m l u gl gu cb).1.count Event.queryHStruct = 1 ↔
      cb.jac_struct.1.length = cb.jac_struct.2.length) ∧
    (Event.createProblem ∈ (ipoptInit n m l u gl gu cb).1 ↔
      (ipoptInit n m l u gl gu cb).2.isOk = true) ∧
    ((cb.jac_struct.1.length ≠ cb.jac_struct.2.length ∨
      cb.h_struct.1.length ≠ cb.h_struct.2.length) ↔
      (ipoptInit n m l u gl gu cb).2 = .error .assertionError) ∧
    ((ipoptInit n m l u gl gu cb).2.toOption.map (fun c => (c.nnzj, c.nnzh)) =
      (ipoptInit n m l u gl gu cb).2.toOption.map
        (fun _ => (cb.jac_struct.1.length, cb.h_struct.1.length))) := by
  by_cases hj : cb.jac_struct.1.length = cb.jac_struct.2.length
  · by_cases hh : cb.h_struct.1.length = cb.h_struct.2.length
    · rcases hcp : create_problem n m cb.jac_struct.1.length
        cb.h_struct.1.length l u gl gu with e | hdl
      · have hne := create_problem_ne_assert n m cb.jac_struct.1.length
          cb.h_struct.1.length l u gl gu
        rw [hcp] at hne
        have hne2 : e ≠ InitError.assertionError := fun he => hne (by rw [he])
        rw [hj, hh] at hcp
        simp [ipoptInit, hj, hh, hcp, Except.isOk, Except.toBool,
          Except.toOption, hne2, List.count_cons, List.count_nil]
      · rw [hj, hh] at hcp
        simp [ipoptInit, hj, hh, hcp, Except.isOk, Except.toBool,
          Except.toOption, List.count_cons, List.count_nil]
    · simp [ipoptInit, hj, hh, Except.isOk, Except.toBool, Except.toOption,
        List.count_cons, List.count_nil]
  · simp [ipoptInit, hj, Except.isOk, Except.toBool, Except.toOption,
      List.count_cons, List.count_nil]

/-- C8 counterexample: the buffer casts in `create_problem` do not validate
lengths.  A variable-lower-bound array of length 5 on a problem with
`n = 3` is a conforming contiguous double buffer of the wrong dimension,
and construction succeeds anyway, creating the native handle. -/
theorem init_no_length_validation_cex :
    (bufEx [1, 2, 3, 4, 5] 10).data.length ≠ 3 ∧
    (ipoptInit 3 1 (bufEx [1, 2, 3, 4, 5] 10) (bufEx [0, 0, 0] 11)
        (bufEx [0] 12) (bufEx [0] 13) cbEx).2.isOk = true ∧
    Event.createProblem ∈
      (ipoptInit 3 1 (bufEx [1, 2, 3, 4, 5] 10) (bufEx [0, 0, 0] 11)
        (bufEx [0] 12) (bufEx [0] 13) cbEx).1 := by
  refine ⟨by decide, ?_, ?_⟩ <;> decide

/-- C8 amended: construction fails (no native handle is created — the
`CreateIpoptProblem` step appears in the trace exactly when construction
succeeds) whenever any of the four bound arrays is not a contiguous
machine-native double-precision one-dimensional buffer; their lengths are
not validated against `n` and `m`; for conforming buffers construction
passes their raw memory addresses to the native handle without copying. -/
theorem init_buffer_validation (n m : Nat) (l u gl gu : PyBuf) (cb : IpoptCallbacks) :
    ((ipoptInit n m l u gl gu cb).2.isOk = true ↔
      (cb.jac_struct.1.length = cb.jac_struct.2.length ∧
       cb.h_struct.1.length = cb.h_struct.2.length ∧
       conformingBuf l = true ∧ conformingBuf u = true ∧
       conformingBuf gl = true ∧ conformingBuf gu = true)) ∧
    (Event.createProblem ∈ (ipoptInit n m l u gl gu cb).1 ↔
      (ipoptInit n m l u gl gu cb).2.isOk = true) ∧
    ((ipoptInit n m l u gl gu cb).2.toOption.map
        (fun c => (c.handle.lAddr, c.handle.uAddr, c.handle.glAddr, c.handle.guAddr)) =
      (ipoptInit n m l u gl gu cb).2.toOption.map
        (fun _ => (l.addr, u.addr, gl.addr, gu.addr))) := by
  by_cases hj : cb.jac_struct.1.length = cb.jac_struct.2.length
  · by_cases hh : cb.h_struct.1.length = cb.h_struct.2.length
    · have hiff := create_problem_isOk_iff n m cb.jac_struct.1.length
        cb.h_struct.1.length l u gl gu
      rcases hcp : create_problem n m cb.jac_struct.1.length
        cb.h_struct.1.length l u gl gu with e | hdl
      · rw [hcp] at hiff
        simp only [Except.isOk, Except.toBool] at hiff
        rw [hj, hh] at hcp
        simp [ipoptInit, hj, hh, hcp, Except.isOk, Except.toBool,
          Except.toOption, ← hiff]
      · have hshape := create_problem_ok n m cb.jac_struct.1.length
          cb.h_struct.1.length l u gl gu hdl hcp
        rw [hcp] at hiff
        simp only [Except.isOk, Except.toBool, true_iff] at hiff
        subst hshape
        rw [hj, hh] at hcp
        simp [ipoptInit, hj, hh, hcp, Except.isOk, Except.toBool,
          Except.toOption, hiff]
    · simp [ipoptInit, hj, hh, Except.isOk, Except.toBool, Except.toOption]
  · simp [ipoptInit, hj, Except.isOk, Except.toBool, Except.toOption]

/-- C6: for every call to `solve` with a conforming starting point of length
`n` and any in-place driver (one that writes back buffers of the lengths it
was handed, as a C function writing through pointers does), the result is a
`SolveResult` — a record with exactly the fields status, x, lam, pi, mu —
whose status and buffer contents are exactly what the driver produced when
invoked on the zero-initialized multiplier buffers `replicate m 0`,
`replicate n 0`, `replicate n 0` allocated by `solve` before the driver ran;
consequently `lam` has length `m` and `pi`, `mu` have length `n`. -/
theorem solve_result_shape (c : IpoptContext) (drv : Driver) (fresh : Nat)
    (x : PyBuf) (hx : conformingBuf x = true) (hxlen : x.data.length = c.n)
    (hdrv : ∀ a b d e : List Int,
      ((drv a b d e).2.2.1).length = b.length ∧
      ((drv a b d e).2.2.2.1).length = d.length ∧
      ((drv a b d e).2.2.2.2).length = e.length) :
    ∃ res : SolveResult,
      c.solve drv fresh x = .ok (res, fresh + 3) ∧
      res.status = (drv x.data (List.replicate c.m 0) (List.replicate c.n 0)
        (List.replicate c.n 0)).1 ∧
      res.x.data = (drv x.data (List.replicate c.m 0) (List.replicate c.n 0)
        (List.replicate c.n 0)).2.1 ∧
      res.lam.data = (drv x.data (List.replicate c.m 0) (List.replicate c.n 0)
        (List.replicate c.n 0)).2.2.1 ∧
      res.pi.data = (drv x.data (List.replicate c.m 0) (List.replicate c.n 0)
        (List.replicate c.n 0)).2.2.2.1 ∧
      res.mu.data = (drv x.data (List.replicate c.m 0) (List.replicate c.n 0)
        (List.replicate c.n 0)).2.2.2.2 ∧
      res.lam.data.length = c.m ∧ res.pi.data.length = c.n ∧
      res.mu.data.length = c.n := by
  obtain ⟨h1, h2, h3⟩ := hdrv x.data (List.replicate c.m 0)
    (List.replicate c.n 0) (List.replicate c.n 0)
  simp only [IpoptContext.solve, hx, not_true_eq_false, if_false, ite_false,
    Bool.true_eq_false]
  refine ⟨_, rfl, rfl, rfl, rfl, rfl, rfl, ?_, ?_, ?_⟩ <;>
    simp [h1, h2, h3]

/-- C6 witness: `solve_result_shape` applied at a concrete context (`n = 2`,
`m = 1`), driver, allocator state and conforming length-2 starting point. -/
theorem solve_result_shape_witness :
    conformingBuf (bufEx [1, 2] 20) = true ∧
    (bufEx [1, 2] 20).data.length = ctxEx.n ∧
    ∃ res : SolveResult,
      ctxEx.solve idDrv 100 (bufEx [1, 2] 20) = .ok (res, 100 + 3) ∧
      res.lam.data.length = ctxEx.m ∧ res.pi.data.length = ctxEx.n ∧
      res.mu.data.length = ctxEx.n :=
  ⟨by decide, by decide, by
    obtain ⟨res, heq, _, _, _, _, _, hl, hp, hm⟩ :=
      solve_result_shape ctxEx idDrv 100 (bufEx [1, 2] 20) (by decide)
        (by decide) (fun a b d e => ⟨rfl, rfl, rfl⟩)
    exact ⟨res, heq, hl, hp, hm⟩⟩

/-- C7 counterexample: the returned final point is not a new buffer.  With a
driver that writes `[8, 9]` through the point pointer, the `x` entry of the
result has the same address 20 as the caller-supplied starting-point buffer
— `solve` takes a zero-copy typed view of the caller's array, so the
caller's buffer is overwritten in place, contradicting the claim that the
final point is distinct from (not aliasing) the caller's buffer. -/
theorem solve_aliases_cex :
    (bufEx [1, 2] 20).addr = 20 ∧ (bufEx [1, 2] 20).data = [1, 2] ∧
    (ctxEx.solve writeDrv 100 (bufEx [1, 2] 20)).toOption.map
      (fun r => (r.1.x.addr, r.1.x.data)) = some (20, [8, 9]) := by
  exact ⟨rfl, rfl, by decide⟩

/-- C7 amended: the three multiplier buffers lam, pi, mu are newly allocated
per solve call — their addresses are the three fresh allocator addresses,
pairwise distinct and distinct from the caller's buffer — but the returned
final point `x` is not: it aliases the caller-supplied starting-point buffer
(same address), because `solve` wraps the caller's array in a zero-copy
typed view and the native driver writes the final point into it in place;
no copy of the starting point is made. -/
theorem solve_allocation (c : IpoptContext) (drv : Driver) (fresh : Nat)
    (x : PyBuf) (hx : conformingBuf x = true) (hfresh : x.addr < fresh) :
    ∃ res : SolveResult,
      c.solve drv fresh x = .ok (res, fresh + 3) ∧
      res.x.addr = x.addr ∧
      res.lam.addr = fresh ∧ res.pi.addr = fresh + 1 ∧
      res.mu.addr = fresh + 2 ∧
      res.x.addr ≠ res.lam.addr ∧ res.x.addr ≠ res.pi.addr ∧
      res.x.addr ≠ res.mu.addr ∧ res.lam.addr ≠ res.pi.addr ∧
      res.lam.addr ≠ res.mu.addr ∧ res.pi.addr ≠ res.mu.addr := by
  simp only [IpoptContext.solve, hx, not_true_eq_false, if_false, ite_false,
    Bool.true_eq_false]
  refine ⟨_, rfl, rfl, rfl, rfl, rfl, ?_, ?_, ?_, ?_, ?_, ?_⟩ <;>
    simp <;> omega

/-- C7 witness: `solve_allocation` applied at a concrete context, driver,
allocator state 100 and a caller buffer at address 20. -/
theorem solve_allocation_witness :
    conformingBuf (bufEx [1, 2] 20) = true ∧ (bufEx [1, 2] 20).addr < 100 ∧
    ∃ res : SolveResult,
      ctxEx.solve idDrv 100 (bufEx [1, 2] 20) = .ok (res, 100 + 3) ∧
      res.x.addr = (bufEx [1, 2] 20).addr ∧ res.lam.addr = 100 ∧
      res.pi.addr = 100 + 1 ∧ res.mu.addr = 100 + 2 :=
  ⟨by decide, by decide, by
    obtain ⟨res, heq, hxa, hl, hp, hm, _⟩ :=
      solve_allocation ctxEx idDrv 100 (bufEx [1, 2] 20) (by decide) (by decide)
    exact ⟨res, heq, hxa, hl, hp, hm⟩⟩

/-- C9: `solve` performs no validation of the starting point's length.  For
every conforming contiguous double buffer — of any length, equal to the
context's `n` or not — `solve` succeeds and hands the buffer's raw data to
the native iteration driver unchanged, never raising an adapter-level
error. -/
theorem solve_no_length_validation (c : IpoptContext) (drv : Driver)
    (fresh : Nat) (x : PyBuf) (hx : conformingBuf x = true) :
    (c.solve drv fresh x).isOk = true ∧
    (c.solve drv fresh x).toOption.map (fun r => r.1.x.data) =
      some (drv x.data (List.replicate c.m 0) (List.replicate c.n 0)
        (List.replicate c.n 0)).2.1 := by
  simp [IpoptContext.solve, hx, Except.isOk, Except.toBool, Except.toOption]

/-- C9 witness: `solve_no_length_validation` applied on a conforming buffer of
length 5 passed to a context with `n = 2`: the solve call still succeeds. -/
theorem solve_no_length_validation_witness :
    conformingBuf (bufEx [1, 2, 3, 4, 5] 30) = true ∧
    (bufEx [1, 2, 3, 4, 5] 30).data.length ≠ ctxEx.n ∧
    (ctxEx.solve idDrv 100 (bufEx [1, 2, 3, 4, 5] 30)).isOk = true ∧
    (ctxEx.solve idDrv 100 (bufEx [1, 2, 3, 4, 5] 30)).toOption.map
      (fun r => r.1.x.data) =
      some (idDrv (bufEx [1, 2, 3, 4, 5] 30).data (List.replicate ctxEx.m 0)
        (List.replicate ctxEx.n 0) (List.replicate ctxEx.n 0)).2.1 :=
  ⟨by decide, by decide,
    (solve_no_length_validation ctxEx idDrv 100 (bufEx [1, 2, 3, 4, 5] 30)
      (by decide)).1,
    (solve_no_length_validation ctxEx idDrv 100 (bufEx [1, 2, 3, 4, 5] 30)
      (by decide)).2⟩

end Cipopt
